import Mathlib

/-!
Verification of the Vulkan utility layer of pcsx2
(`pcsx2/GS/Renderers/Vulkan/VKUtil.cpp`): the resource teardown service,
the buffer-barrier builder, the extension chain linker and the status
translator.  The C++ functions are shallowly embedded as pure Lean
functions; the native Vulkan entry points (`vkDestroy*`,
`FreeGlobalDescriptorSet`, `vkCmdPipelineBarrier`) are modelled as
events recorded in the function's output, and the mutable handle slot
passed by reference becomes an explicit input/output value.
-/

namespace Vulkan

/-- The empty handle sentinel `VK_NULL_HANDLE` (opaque handles are modelled
as natural numbers, `0` standing for the null handle). -/
def VK_NULL_HANDLE : Nat := 0

/-- One call into a native Vulkan entry point (or into the owning context's
descriptor-pool free operation), as recorded by the teardown functions. -/
inductive VkCall where
  | destroyFramebuffer (device : Nat) (framebuffer : Nat)
  | destroyShaderModule (device : Nat) (shaderModule : Nat)
  | freeGlobalDescriptorSet (descriptorSet : Nat)
deriving DecidableEq

/-- The handle argument carried by a recorded native call. -/
def VkCall.handleArg : VkCall → Nat
  | .destroyFramebuffer _ fb => fb
  | .destroyShaderModule _ sm => sm
  | .freeGlobalDescriptorSet ds => ds

/-- Embedding of `Vulkan::SafeDestroyFramebuffer`.  `device` stands for
`g_vulkan_context->GetDevice()`; the result is the new value of the
by-reference slot `fb` together with the list of native calls made. -/
def SafeDestroyFramebuffer (device : Nat) (fb : Nat) : Nat × List VkCall :=
  if fb ≠ VK_NULL_HANDLE then
    (VK_NULL_HANDLE, [VkCall.destroyFramebuffer device fb])
  else
    (fb, [])

/-- Embedding of `Vulkan::SafeDestroyShaderModule`. -/
def SafeDestroyShaderModule (device : Nat) (sm : Nat) : Nat × List VkCall :=
  if sm ≠ VK_NULL_HANDLE then
    (VK_NULL_HANDLE, [VkCall.destroyShaderModule device sm])
  else
    (sm, [])

/-- Embedding of `Vulkan::SafeFreeGlobalDescriptorSet`; the pooled set is
handed back through `g_vulkan_context->FreeGlobalDescriptorSet`, not a
`vkDestroy*` entry point. -/
def SafeFreeGlobalDescriptorSet (ds : Nat) : Nat × List VkCall :=
  if ds ≠ VK_NULL_HANDLE then
    (VK_NULL_HANDLE, [VkCall.freeGlobalDescriptorSet ds])
  else
    (ds, [])

/-- `VK_QUEUE_FAMILY_IGNORED` = `(~0U)`. -/
def VK_QUEUE_FAMILY_IGNORED : Nat := 4294967295

/-- `VK_WHOLE_SIZE` = `(~0ULL)`. -/
def VK_WHOLE_SIZE : Nat := 18446744073709551615

/-- Numeric value of `VK_STRUCTURE_TYPE_BUFFER_MEMORY_BARRIER`. -/
def VK_STRUCTURE_TYPE_BUFFER_MEMORY_BARRIER : Nat := 44

/-- The `VkBufferMemoryBarrier` descriptor, field for field (the `pNext`
pointer is modelled as a number, `0` = `nullptr`). -/
structure VkBufferMemoryBarrier where
  sType : Nat
  pNext : Nat
  srcAccessMask : Nat
  dstAccessMask : Nat
  srcQueueFamilyIndex : Nat
  dstQueueFamilyIndex : Nat
  buffer : Nat
  offset : Nat
  size : Nat
deriving DecidableEq

/-- The `vkCmdPipelineBarrier` invocation emitted by
`Vulkan::BufferMemoryBarrier`, argument for argument (the two `nullptr`
barrier arrays are the empty lists). -/
structure PipelineBarrierCmd where
  command_buffer : Nat
  src_stage_mask : Nat
  dst_stage_mask : Nat
  dependency_flags : Nat
  memoryBarriers : List Nat
  bufferBarriers : List VkBufferMemoryBarrier
  imageBarriers : List Nat
deriving DecidableEq

/-- Embedding of `Vulkan::BufferMemoryBarrier`: builds the
`VkBufferMemoryBarrier` descriptor `buffer_info` and emits it in a single
`vkCmdPipelineBarrier` call, returned as the recorded command. -/
def BufferMemoryBarrier (command_buffer buffer src_access_mask dst_access_mask
    offset size src_stage_mask dst_stage_mask : Nat) : PipelineBarrierCmd :=
  let buffer_info : VkBufferMemoryBarrier :=
    ⟨VK_STRUCTURE_TYPE_BUFFER_MEMORY_BARRIER, 0, src_access_mask, dst_access_mask,
      VK_QUEUE_FAMILY_IGNORED, VK_QUEUE_FAMILY_IGNORED, buffer, offset, size⟩
  ⟨command_buffer, src_stage_mask, dst_stage_mask, 0, [], [buffer_info], []⟩

/-- Numeric values of the `VkResult` codes named in the `switch` of
`Vulkan::VkResultToString`, in source order. -/
def declaredVkResults : List Int :=
  [0, 1, 2, 3, 4, 5, -1, -2, -3, -4, -5, -6, -7, -8, -9, -10, -11,
   -1000000000, -1000000001, 1000001003, -1000001004, -1000003001,
   -1000011001, -1000012000]

/-- Embedding of `Vulkan::VkResultToString` (the `switch` becomes a chain
of equality tests on the numeric `VkResult` value). -/
def VkResultToString (res : Int) : String :=
  if res = 0 then "VK_SUCCESS"
  else if res = 1 then "VK_NOT_READY"
  else if res = 2 then "VK_TIMEOUT"
  else if res = 3 then "VK_EVENT_SET"
  else if res = 4 then "VK_EVENT_RESET"
  else if res = 5 then "VK_INCOMPLETE"
  else if res = -1 then "VK_ERROR_OUT_OF_HOST_MEMORY"
  else if res = -2 then "VK_ERROR_OUT_OF_DEVICE_MEMORY"
  else if res = -3 then "VK_ERROR_INITIALIZATION_FAILED"
  else if res = -4 then "VK_ERROR_DEVICE_LOST"
  else if res = -5 then "VK_ERROR_MEMORY_MAP_FAILED"
  else if res = -6 then "VK_ERROR_LAYER_NOT_PRESENT"
  else if res = -7 then "VK_ERROR_EXTENSION_NOT_PRESENT"
  else if res = -8 then "VK_ERROR_FEATURE_NOT_PRESENT"
  else if res = -9 then "VK_ERROR_INCOMPATIBLE_DRIVER"
  else if res = -10 then "VK_ERROR_TOO_MANY_OBJECTS"
  else if res = -11 then "VK_ERROR_FORMAT_NOT_SUPPORTED"
  else if res = -1000000000 then "VK_ERROR_SURFACE_LOST_KHR"
  else if res = -1000000001 then "VK_ERROR_NATIVE_WINDOW_IN_USE_KHR"
  else if res = 1000001003 then "VK_SUBOPTIMAL_KHR"
  else if res = -1000001004 then "VK_ERROR_OUT_OF_DATE_KHR"
  else if res = -1000003001 then "VK_ERROR_INCOMPATIBLE_DISPLAY_KHR"
  else if res = -1000011001 then "VK_ERROR_VALIDATION_FAILED_EXT"
  else if res = -1000012000 then "VK_ERROR_INVALID_SHADER_NV"
  else "UNKNOWN_VK_RESULT"

/-- Pointers of the structure-chain heap model (`0` = `nullptr`). -/
abbrev Ptr := Nat

/-- A `VkBaseInStructure` node: the structure type tag, the `pNext` link,
and one field standing for the extension-specific payload. -/
structure VkBaseInStructure where
  sType : Nat
  pNext : Ptr
  payload : Nat
deriving DecidableEq

/-- The heap: what node each pointer designates. -/
abbrev Heap := Ptr → VkBaseInStructure

/-- Writing one node of the heap. -/
def updateHeap (h : Heap) (p : Ptr) (n : VkBaseInStructure) : Heap :=
  fun q => if q = p then n else h q

/-- Fuel-bounded traversal of a structure chain: the list of pointers
visited from `cur` (inclusive) following `pNext` until `nullptr`; `none`
when the fuel runs out, as it does on every cyclic chain. -/
def chainTrav (h : Heap) : Nat → Ptr → Option (List Ptr)
  | 0, _ => none
  | fuel + 1, cur =>
    if (h cur).pNext = 0 then some [cur]
    else (chainTrav h fuel (h cur).pNext).map (fun l => cur :: l)

/-- Embedding of `Vulkan::AddPointerToChain(head, ptr)`: walk from `head`
while `pNext` is non-null, returning the heap unchanged when some `pNext`
already equals `ptr`, and otherwise writing `ptr` into the `pNext` of the
last node.  The C++ `while` loop becomes fuel-bounded recursion; `none`
means the fuel was exhausted (only possible on an invalid, cyclic chain). -/
def AddPointerToChain (h : Heap) : Nat → Ptr → Ptr → Option Heap
  | 0, _, _ => none
  | fuel + 1, last_st, ptr =>
    if (h last_st).pNext = 0 then
      some (updateHeap h last_st ⟨(h last_st).sType, ptr, (h last_st).payload⟩)
    else if (h last_st).pNext = ptr then
      some h
    else
      AddPointerToChain h fuel (h last_st).pNext ptr

/-- A valid chain rooted at `head`: the traversal terminates with exactly
the node list `l`, no node repeats, and the null pointer is not a node. -/
@[reducible] def validChain (h : Heap) (head : Ptr) (l : List Ptr) : Prop :=
  chainTrav h l.length head = some l ∧ l.Nodup ∧ 0 ∉ l

/-- Traversal from `p` never terminates, whatever the fuel (a cyclic
chain). -/
def neverTerminates (h : Heap) (p : Ptr) : Prop :=
  ∀ f, chainTrav h f p = none

/-- A one-node heap: node `1` is a chain head with no successor. -/
def singletonHeap : Heap :=
  fun p => if p = 1 then ⟨10, 0, 7⟩ else ⟨0, 0, 0⟩

/-- `singletonHeap` after node `1` has been linked onto its own chain:
node `1` now points to itself. -/
def loopedHeap : Heap :=
  fun p => if p = 1 then ⟨10, 1, 7⟩ else ⟨0, 0, 0⟩

/-- A heap holding the chain `1 → 2 → 3` (head `1`, then the two linked
extension nodes `2` and `3`) plus a fresh unlinked node `4`. -/
def chainXYHeap : Heap :=
  fun p =>
    if p = 1 then ⟨10, 2, 7⟩
    else if p = 2 then ⟨20, 3, 8⟩
    else if p = 3 then ⟨30, 0, 9⟩
    else if p = 4 then ⟨40, 0, 6⟩
    else ⟨0, 0, 0⟩

/-- A heap of four isolated nodes: head `1` and unlinked nodes `2`, `3`,
`4`, used to replay the scenario of linking three nodes in order. -/
def freshNodesHeap : Heap :=
  fun p =>
    if p = 1 then ⟨10, 0, 7⟩
    else if p = 2 then ⟨20, 0, 8⟩
    else if p = 3 then ⟨30, 0, 9⟩
    else if p = 4 then ⟨40, 0, 6⟩
    else ⟨0, 0, 0⟩

end Vulkan

namespace Vulkan

/-- Every terminating traversal starts with the node it was started at. -/
theorem chainTrav_cons (h : Heap) (f : Nat) (p : Ptr) (l : List Ptr)
    (hl : chainTrav h f p = some l) : ∃ rest, l = p :: rest := by
  cases f with
  | zero => simp [chainTrav] at hl
  | succ f =>
    rw [chainTrav] at hl
    split at hl
    · exact ⟨[], (Option.some_inj.mp hl).symm⟩
    · obtain ⟨l₂, hl₂, hb⟩ := Option.map_eq_some'.mp hl
      exact ⟨l₂, hb.symm⟩

/-- When `ptr` is already linked somewhere after the head, the walk finds
it as a `pNext` value and returns the heap unchanged. -/
theorem addPtr_dup (h : Heap) (ptr : Ptr) :
    ∀ f cur l, chainTrav h f cur = some l → ptr ∈ l.tail →
      AddPointerToChain h f cur ptr = some h := by
  intro f
  induction f with
  | zero => intro cur l hl _; simp [chainTrav] at hl
  | succ f ih =>
    intro cur l hl hm
    rw [chainTrav] at hl
    rw [AddPointerToChain]
    by_cases h0 : (h cur).pNext = 0
    · rw [if_pos h0] at hl
      obtain hb := (Option.some_inj.mp hl).symm
      subst hb
      simp at hm
    · rw [if_neg h0] at hl
      obtain ⟨l₂, hl₂, hb⟩ := Option.map_eq_some'.mp hl
      subst hb
      rw [if_neg h0]
      by_cases hptr : (h cur).pNext = ptr
      · rw [if_pos hptr]
      · rw [if_neg hptr]
        obtain ⟨rest, hrest⟩ := chainTrav_cons h f _ l₂ hl₂
        subst hrest
        apply ih _ _ hl₂
        simp only [List.tail_cons] at hm
        rcases List.mem_cons.mp hm with he | hr
        · exact absurd he.symm hptr
        · simpa using hr

/-- When `ptr` is not linked after the head, the walk reaches the tail
node and writes `ptr` into its `pNext`. -/
theorem addPtr_fresh (h : Heap) (ptr : Ptr) :
    ∀ f cur l, chainTrav h f cur = some l → ptr ∉ l.tail →
      ∃ l₀ t, l = l₀ ++ [t] ∧ (h t).pNext = 0 ∧
        AddPointerToChain h f cur ptr =
          some (updateHeap h t ⟨(h t).sType, ptr, (h t).payload⟩) := by
  intro f
  induction f with
  | zero => intro cur l hl _; simp [chainTrav] at hl
  | succ f ih =>
    intro cur l hl hm
    rw [chainTrav] at hl
    rw [AddPointerToChain]
    by_cases h0 : (h cur).pNext = 0
    · rw [if_pos h0] at hl
      obtain hb := (Option.some_inj.mp hl).symm
      subst hb
      exact ⟨[], cur, rfl, h0, by rw [if_pos h0]⟩
    · rw [if_neg h0] at hl
      obtain ⟨l₂, hl₂, hb⟩ := Option.map_eq_some'.mp hl
      subst hb
      have hptr : (h cur).pNext ≠ ptr := by
        obtain ⟨rest, hrest⟩ := chainTrav_cons h f _ l₂ hl₂
        intro he
        apply hm
        rw [hrest]
        simp [he]
      rw [if_neg h0, if_neg hptr]
      have hm₂ : ptr ∉ l₂.tail := by
        intro hin
        exact hm (by simpa using List.mem_of_mem_tail hin)
      obtain ⟨l₀, t, hlt, hpn, hres⟩ := ih _ _ hl₂ hm₂
      exact ⟨cur :: l₀, t, by rw [hlt]; rfl, hpn, hres⟩


/-- A node pointing to itself makes traversal from it run forever. -/
theorem chainTrav_selfLoop (h : Heap) (p : Ptr) (hp : p ≠ 0)
    (hpn : (h p).pNext = p) : ∀ f, chainTrav h f p = none := by
  intro f
  induction f with
  | zero => rfl
  | succ f ih =>
    rw [chainTrav, hpn, if_neg hp, ih]
    rfl

/-- Rewriting the tail's `pNext` with its current value leaves the heap
unchanged. -/
theorem updateHeap_self (h : Heap) (t : Ptr) (hpn : (h t).pNext = 0) :
    updateHeap h t ⟨(h t).sType, 0, (h t).payload⟩ = h := by
  funext q
  by_cases hq : q = t
  · subst hq
    simp [updateHeap, ← hpn]
  · simp [updateHeap, hq]

/-- After writing `ptr` into the `pNext` of the tail `t` of a valid chain,
the traversal is the old one with `ptr` appended. -/
theorem chainTrav_append (h : Heap) (ptr : Ptr) (hp0 : ptr ≠ 0)
    (hpn : (h ptr).pNext = 0) :
    ∀ f cur l₀ t, chainTrav h f cur = some (l₀ ++ [t]) →
      (l₀ ++ [t]).Nodup → ptr ∉ l₀ ++ [t] →
      chainTrav (updateHeap h t ⟨(h t).sType, ptr, (h t).payload⟩) (f + 1) cur =
        some (l₀ ++ [t] ++ [ptr]) := by
  intro f
  induction f with
  | zero => intro cur l₀ t hl _ _; simp [chainTrav] at hl
  | succ f ih =>
    intro cur l₀ t hl hnd hnm
    have hptrt : ptr ≠ t := fun he => hnm (by simp [he])
    rw [chainTrav] at hl
    by_cases h0 : (h cur).pNext = 0
    · rw [if_pos h0] at hl
      obtain hb := (Option.some_inj.mp hl).symm
      have hl0 : l₀ = [] ∧ t = cur := by
        cases l₀ with
        | nil => simpa using hb
        | cons a l₀ =>
          exfalso
          have := congrArg List.length hb
          simp at this
      obtain ⟨rfl, rfl⟩ := hl0
      rw [chainTrav]
      have hcur : updateHeap h t ⟨(h t).sType, ptr, (h t).payload⟩ t =
          ⟨(h t).sType, ptr, (h t).payload⟩ := by
        simp [updateHeap]
      rw [hcur]
      simp only [if_neg hp0]
      rw [chainTrav]
      have hptr' : updateHeap h t ⟨(h t).sType, ptr, (h t).payload⟩ ptr = h ptr := by
        simp [updateHeap, hptrt]
      rw [hptr', if_pos hpn]
      rfl
    · rw [if_neg h0] at hl
      obtain ⟨l₂, hl₂, hb⟩ := Option.map_eq_some'.mp hl
      cases l₀ with
      | nil =>
        exfalso
        simp only [List.nil_append] at hb
        obtain ⟨rest, hrest⟩ := chainTrav_cons h f _ l₂ hl₂
        rw [hrest] at hb
        have := congrArg List.length hb
        simp at this
      | cons a l₀ =>
        rw [List.cons_append] at hb
        obtain ⟨rfl, hl₂eq⟩ := List.cons.inj hb
        subst hl₂eq
        obtain ⟨hcnm, hnd₂⟩ := List.nodup_cons.mp hnd
        have hcurt : cur ≠ t := fun he => hcnm (by simp [he])
        have hnm₂ : ptr ∉ l₀ ++ [t] := fun hin => hnm (List.mem_cons_of_mem _ hin)
        have hres := ih (h cur).pNext l₀ t hl₂ hnd₂ hnm₂
        rw [chainTrav]
        have hcur : updateHeap h t ⟨(h t).sType, ptr, (h t).payload⟩ cur = h cur := by
          simp [updateHeap, hcurt]
        rw [hcur, if_neg h0, hres]
        simp

/-- Writing a fresh non-null node onto the tail of a valid chain yields a
valid chain with the node appended. -/
theorem addPtr_extend (h : Heap) (head ptr : Ptr) (l : List Ptr)
    (hv : validChain h head l) (hnew : ptr ∉ l) (hp0 : ptr ≠ 0)
    (hpn : (h ptr).pNext = 0) :
    ∃ h', AddPointerToChain h l.length head ptr = some h' ∧
      validChain h' head (l ++ [ptr]) := by
  obtain ⟨htrav, hnd, h0l⟩ := hv
  have hnt : ptr ∉ l.tail := fun hin => hnew (List.mem_of_mem_tail hin)
  obtain ⟨l₀, t, hlt, hpt, hres⟩ := addPtr_fresh h ptr l.length head l htrav hnt
  subst hlt
  refine ⟨_, hres, ?_, ?_, ?_⟩
  · have := chainTrav_append h ptr hp0 hpn (l₀ ++ [t]).length head l₀ t htrav hnd hnew
    simpa using this
  · exact hnd.append (List.nodup_singleton ptr) (List.disjoint_singleton.mpr hnew)
  · intro hin
    rcases List.mem_append.mp hin with hi | hi
    · exact h0l hi
    · exact hp0 (List.mem_singleton.mp hi).symm

/-- Linking the head of a one-node chain onto its own chain self-loops the
head node. -/
theorem addPtr_singleton_self :
    AddPointerToChain singletonHeap 1 1 1 = some loopedHeap := by
  have h1 : AddPointerToChain singletonHeap 1 1 1 =
      some (updateHeap singletonHeap 1 ⟨10, 1, 7⟩) := rfl
  rw [h1]
  congr 1
  funext q
  by_cases hq : q = 1 <;> simp [updateHeap, singletonHeap, loopedHeap, hq]

/-- C1: for every live (non-null) handle slot, `SafeDestroyFramebuffer`
makes exactly one native destroy call, carrying the current device and the
live handle, and resets the slot to `VK_NULL_HANDLE`; a further call on
the now-empty slot makes no call at all. -/
theorem SafeDestroyFramebuffer_live_destroys_once (device fb : Nat)
    (hfb : fb ≠ VK_NULL_HANDLE) :
    SafeDestroyFramebuffer device fb =
      (VK_NULL_HANDLE, [VkCall.destroyFramebuffer device fb]) ∧
    SafeDestroyFramebuffer device VK_NULL_HANDLE = (VK_NULL_HANDLE, []) := by
  constructor
  · rw [SafeDestroyFramebuffer, if_pos hfb]
  · rw [SafeDestroyFramebuffer]
    simp

/-- Witness for C1 at device `3` and live handle `5`. -/
theorem SafeDestroyFramebuffer_live_destroys_once_witness :
    (5 : Nat) ≠ VK_NULL_HANDLE ∧
    (SafeDestroyFramebuffer 3 5 = (VK_NULL_HANDLE, [VkCall.destroyFramebuffer 3 5]) ∧
      SafeDestroyFramebuffer 3 VK_NULL_HANDLE = (VK_NULL_HANDLE, [])) :=
  ⟨by decide, SafeDestroyFramebuffer_live_destroys_once 3 5 (by decide)⟩

/-- C2: `SafeDestroyShaderModule` is a no-op on the empty slot, and two
successive calls on any slot make exactly one native destroy call in
total when the slot started live and zero when it started empty. -/
theorem SafeDestroyShaderModule_idempotent (device sm : Nat) :
    SafeDestroyShaderModule device VK_NULL_HANDLE = (VK_NULL_HANDLE, []) ∧
    (SafeDestroyShaderModule device sm).1 = VK_NULL_HANDLE ∧
    ((SafeDestroyShaderModule device sm).2 ++
        (SafeDestroyShaderModule device (SafeDestroyShaderModule device sm).1).2).length =
      if sm = VK_NULL_HANDLE then 0 else 1 := by
  by_cases hsm : sm = VK_NULL_HANDLE <;>
    simp only [VK_NULL_HANDLE] at hsm <;>
    simp [SafeDestroyShaderModule, VK_NULL_HANDLE, hsm]

/-- C3: no native destroy call recorded by `SafeDestroyFramebuffer` ever
carries the empty sentinel as its handle argument. -/
theorem SafeDestroyFramebuffer_never_destroys_null (device fb : Nat) (c : VkCall)
    (hc : c ∈ (SafeDestroyFramebuffer device fb).2) : 0 < c.handleArg := by
  rw [SafeDestroyFramebuffer] at hc
  by_cases hfb : fb ≠ VK_NULL_HANDLE
  · rw [if_pos hfb] at hc
    rw [List.mem_singleton.mp hc]
    exact Nat.pos_of_ne_zero hfb
  · rw [if_neg hfb] at hc
    simp at hc

/-- Witness for C3: the destroy call made for live handle `5` carries a
non-null handle. -/
theorem SafeDestroyFramebuffer_never_destroys_null_witness :
    VkCall.destroyFramebuffer 3 5 ∈ (SafeDestroyFramebuffer 3 5).2 ∧
    0 < (VkCall.destroyFramebuffer 3 5).handleArg :=
  ⟨by decide, SafeDestroyFramebuffer_never_destroys_null 3 5 _ (by decide)⟩

/-- C4: for every live descriptor-set slot, `SafeFreeGlobalDescriptorSet`
makes exactly one call, which returns the set to its owning pool through
the device context (not a native destroy entry point), and resets the
slot to `VK_NULL_HANDLE`. -/
theorem SafeFreeGlobalDescriptorSet_returns_to_pool (ds : Nat)
    (hds : ds ≠ VK_NULL_HANDLE) :
    SafeFreeGlobalDescriptorSet ds =
      (VK_NULL_HANDLE, [VkCall.freeGlobalDescriptorSet ds]) := by
  rw [SafeFreeGlobalDescriptorSet, if_pos hds]

/-- Witness for C4 at live descriptor set `7`. -/
theorem SafeFreeGlobalDescriptorSet_returns_to_pool_witness :
    (7 : Nat) ≠ VK_NULL_HANDLE ∧
    SafeFreeGlobalDescriptorSet 7 = (VK_NULL_HANDLE, [VkCall.freeGlobalDescriptorSet 7]) :=
  ⟨by decide, SafeFreeGlobalDescriptorSet_returns_to_pool 7 (by decide)⟩

/-- C5: `BufferMemoryBarrier` emits exactly one buffer-barrier descriptor
whose queue-family fields are both `VK_QUEUE_FAMILY_IGNORED` and whose
resource, access-mask, offset and size fields equal the arguments; at
`offset = 0`, `size = VK_WHOLE_SIZE` this is the whole-resource
descriptor. -/
theorem BufferMemoryBarrier_builds_descriptor (command_buffer buffer src_access
    dst_access offset size src_stage dst_stage : Nat) :
    BufferMemoryBarrier command_buffer buffer src_access dst_access offset size
        src_stage dst_stage =
      ⟨command_buffer, src_stage, dst_stage, 0, [],
        [⟨VK_STRUCTURE_TYPE_BUFFER_MEMORY_BARRIER, 0, src_access, dst_access,
          VK_QUEUE_FAMILY_IGNORED, VK_QUEUE_FAMILY_IGNORED, buffer, offset, size⟩], []⟩ ∧
    (BufferMemoryBarrier command_buffer buffer src_access dst_access 0 VK_WHOLE_SIZE
          src_stage dst_stage).bufferBarriers =
      [⟨VK_STRUCTURE_TYPE_BUFFER_MEMORY_BARRIER, 0, src_access, dst_access,
        VK_QUEUE_FAMILY_IGNORED, VK_QUEUE_FAMILY_IGNORED, buffer, 0, VK_WHOLE_SIZE⟩] :=
  ⟨rfl, rfl⟩

/-- C9: `VkResultToString` maps each of the 24 declared `VkResult` codes
(including `VK_SUCCESS`) to its own pairwise-distinct constant string,
none of which is the fallback, and maps every other integer to the fixed
fallback string `UNKNOWN_VK_RESULT`. -/
theorem VkResultToString_total :
    declaredVkResults.map VkResultToString =
      ["VK_SUCCESS", "VK_NOT_READY", "VK_TIMEOUT", "VK_EVENT_SET", "VK_EVENT_RESET",
       "VK_INCOMPLETE", "VK_ERROR_OUT_OF_HOST_MEMORY", "VK_ERROR_OUT_OF_DEVICE_MEMORY",
       "VK_ERROR_INITIALIZATION_FAILED", "VK_ERROR_DEVICE_LOST", "VK_ERROR_MEMORY_MAP_FAILED",
       "VK_ERROR_LAYER_NOT_PRESENT", "VK_ERROR_EXTENSION_NOT_PRESENT",
       "VK_ERROR_FEATURE_NOT_PRESENT", "VK_ERROR_INCOMPATIBLE_DRIVER",
       "VK_ERROR_TOO_MANY_OBJECTS", "VK_ERROR_FORMAT_NOT_SUPPORTED",
       "VK_ERROR_SURFACE_LOST_KHR", "VK_ERROR_NATIVE_WINDOW_IN_USE_KHR", "VK_SUBOPTIMAL_KHR",
       "VK_ERROR_OUT_OF_DATE_KHR", "VK_ERROR_INCOMPATIBLE_DISPLAY_KHR",
       "VK_ERROR_VALIDATION_FAILED_EXT", "VK_ERROR_INVALID_SHADER_NV"] ∧
    (declaredVkResults.map VkResultToString).Nodup ∧
    "UNKNOWN_VK_RESULT" ∉ declaredVkResults.map VkResultToString ∧
    ∀ r : Int, r ∉ declaredVkResults → VkResultToString r = "UNKNOWN_VK_RESULT" := by
  refine ⟨by decide, by decide, by decide, ?_⟩
  intro r hr
  simp only [declaredVkResults, List.mem_cons, List.not_mem_nil, or_false, not_or] at hr
  obtain ⟨h1, h2, h3, h4, h5, h6, h7, h8, h9, h10, h11, h12, h13, h14, h15, h16, h17,
    h18, h19, h20, h21, h22, h23, h24⟩ := hr
  simp [VkResultToString, h1, h2, h3, h4, h5, h6, h7, h8, h9, h10, h11, h12, h13, h14,
    h15, h16, h17, h18, h19, h20, h21, h22, h23, h24]

/-- Witness for C9: the out-of-enumeration code `999` maps to the fixed
fallback string. -/
theorem VkResultToString_total_witness :
    (999 : Int) ∉ declaredVkResults ∧ VkResultToString 999 = "UNKNOWN_VK_RESULT" :=
  ⟨by decide, VkResultToString_total.2.2.2 999 (by decide)⟩

/-- C6: linking a node that is already reachable in the chain (linked
after the head) is a no-op: `AddPointerToChain` returns the heap
unchanged, so the chain, its length and its terminating traversal are
those of the chain before the call. -/
theorem AddPointerToChain_duplicate_noop (h : Heap) (head ptr : Ptr) (l : List Ptr)
    (hv : validChain h head l) (hmem : ptr ∈ l.tail) :
    AddPointerToChain h l.length head ptr = some h ∧
    chainTrav h l.length head = some l :=
  ⟨addPtr_dup h ptr l.length head l hv.1 hmem, hv.1⟩

/-- Witness for C6, replaying the spec scenario: on the chain
`1 → 2 → 3` (head `1`, linked nodes `2` and `3`), re-linking `2` changes
nothing; linking `2`, then `3`, then `2` again onto the bare head leaves
the chain `[2, 3]` of length `2` after the head. -/
theorem AddPointerToChain_duplicate_noop_witness :
    validChain chainXYHeap 1 [1, 2, 3] ∧ 2 ∈ ([1, 2, 3] : List Ptr).tail ∧
    (AddPointerToChain chainXYHeap 3 1 2 = some chainXYHeap ∧
      chainTrav chainXYHeap 3 1 = some [1, 2, 3]) ∧
    ((AddPointerToChain freshNodesHeap 4 1 2).bind fun h2 =>
      (AddPointerToChain h2 4 1 3).bind fun h3 =>
        (AddPointerToChain h3 4 1 2).bind fun h4 => chainTrav h4 4 1) = some [1, 2, 3] ∧
    ([1, 2, 3] : List Ptr).tail.length = 2 :=
  ⟨by decide, by decide,
    AddPointerToChain_duplicate_noop chainXYHeap 1 2 [1, 2, 3] (by decide) (by decide),
    by decide, by decide⟩

/-- C7: linking a non-null node that is not yet in a valid chain and has
an empty `pNext` appends it at the tail: the traversal of the resulting
chain is the old traversal with the node appended (arrival order is
traversal order). -/
theorem AddPointerToChain_appends_at_tail (h : Heap) (head ptr : Ptr) (l : List Ptr)
    (hv : validChain h head l) (hnew : ptr ∉ l) (hp0 : ptr ≠ 0)
    (hpn : (h ptr).pNext = 0) :
    ∃ h', AddPointerToChain h l.length head ptr = some h' ∧
      validChain h' head (l ++ [ptr]) :=
  addPtr_extend h head ptr l hv hnew hp0 hpn

/-- Witness for C7: appending fresh node `4` to the chain `1 → 2 → 3`,
and replaying the spec scenario: linking `2`, `3`, `4` in that order onto
the bare head `1` yields the traversal `1 → 2 → 3 → 4`. -/
theorem AddPointerToChain_appends_at_tail_witness :
    validChain chainXYHeap 1 [1, 2, 3] ∧ 4 ∉ ([1, 2, 3] : List Ptr) ∧
    (chainXYHeap 4).pNext = 0 ∧
    (∃ h', AddPointerToChain chainXYHeap 3 1 4 = some h' ∧
      validChain h' 1 [1, 2, 3, 4]) ∧
    ((AddPointerToChain freshNodesHeap 4 1 2).bind fun h2 =>
      (AddPointerToChain h2 4 1 3).bind fun h3 =>
        (AddPointerToChain h3 4 1 4).bind fun h4 => chainTrav h4 4 1) = some [1, 2, 3, 4] :=
  ⟨by decide, by decide, by decide,
    AddPointerToChain_appends_at_tail chainXYHeap 1 4 [1, 2, 3] (by decide) (by decide)
      (by decide) (by decide),
    by decide⟩

/-- C8 counterexample: the claim fails when the argument node is the chain
head itself.  On the valid one-node chain headed at `1`, with the head's
`pNext` empty, `AddPointerToChain` appends the head to its own chain,
producing a self-referencing node, and the resulting chain is cyclic:
its traversal terminates under no fuel. -/
theorem AddPointerToChain_head_insert_breaks_acyclicity :
    validChain singletonHeap 1 [1] ∧ (singletonHeap 1).pNext = 0 ∧
    AddPointerToChain singletonHeap 1 1 1 = some loopedHeap ∧
    (loopedHeap 1).pNext = 1 ∧ neverTerminates loopedHeap 1 :=
  ⟨by decide, by decide, addPtr_singleton_self, by decide,
    chainTrav_selfLoop loopedHeap 1 (by decide) (by decide)⟩

/-- C8 (amended): for every valid chain (acyclic, no repeated node) and
every argument node with empty `pNext` that is distinct from the chain
head, `AddPointerToChain` yields a valid chain again — acyclic, no node
repeated — whose traversal is either the old one (duplicate no-op) or the
old one with the node appended, so the relative order of the nodes
already present is unchanged. -/
theorem AddPointerToChain_preserves_chain_invariant (h : Heap) (head ptr : Ptr)
    (l : List Ptr) (hv : validChain h head l) (hpn : (h ptr).pNext = 0)
    (hne : ptr ≠ head) :
    ∃ h' l', AddPointerToChain h l.length head ptr = some h' ∧
      validChain h' head l' ∧ (l' = l ∨ l' = l ++ [ptr]) := by
  by_cases hmem : ptr ∈ l.tail
  · exact ⟨h, l, addPtr_dup h ptr l.length head l hv.1 hmem, hv, Or.inl rfl⟩
  · have hnew : ptr ∉ l := by
      obtain ⟨rest, hrest⟩ := chainTrav_cons h l.length head l hv.1
      subst hrest
      intro hin
      rcases List.mem_cons.mp hin with he | hr
      · exact hne he
      · exact hmem (by simpa using hr)
    by_cases hp0 : ptr = 0
    · subst hp0
      obtain ⟨l₀, t, hlt, hpt, hres⟩ := addPtr_fresh h 0 l.length head l hv.1 hmem
      rw [updateHeap_self h t hpt] at hres
      exact ⟨h, l, hres, hv, Or.inl rfl⟩
    · obtain ⟨h', hres, hv'⟩ := addPtr_extend h head ptr l hv hnew hp0 hpn
      exact ⟨h', l ++ [ptr], hres, hv', Or.inr rfl⟩

/-- Witness for amended C8: linking fresh node `2` (distinct from the
head) onto the one-node chain at `1`. -/
theorem AddPointerToChain_preserves_chain_invariant_witness :
    validChain singletonHeap 1 [1] ∧ (singletonHeap 2).pNext = 0 ∧
    (∃ h' l', AddPointerToChain singletonHeap 1 1 2 = some h' ∧
      validChain h' 1 l' ∧ (l' = [1] ∨ l' = [1] ++ [2])) :=
  ⟨by decide, by decide,
    AddPointerToChain_preserves_chain_invariant singletonHeap 1 2 [1] (by decide)
      (by decide) (by decide)⟩

/-- C10 counterexample: the frame claim fails when the argument node is
already the tail (here, the head of a one-node chain, whose `pNext` is
empty): the node is appended onto itself, so a field of the appended node
itself — its `pNext`, `0` before the call — is changed to `1`. -/
theorem AddPointerToChain_self_append_mutates_node :
    (singletonHeap 1).pNext = 0 ∧
    AddPointerToChain singletonHeap 1 1 1 = some loopedHeap ∧
    (loopedHeap 1).pNext = 1 ∧ (singletonHeap 1).sType = (loopedHeap 1).sType ∧
    (singletonHeap 1).payload = (loopedHeap 1).payload :=
  ⟨by decide, addPtr_singleton_self, by decide, by decide, by decide⟩

/-- C10 (amended): on a valid chain, `AddPointerToChain` either is a
duplicate no-op that returns the very same heap, or appends by rewriting
exactly one field: the old tail's `pNext` (empty before the call) becomes
the new node, the tail's type tag and payload are kept, and every node
other than the old tail — in particular the appended node, whenever it is
not itself the old tail — is completely untouched. -/
theorem AddPointerToChain_frame (h : Heap) (head ptr : Ptr) (l : List Ptr)
    (hv : validChain h head l) :
    (ptr ∈ l.tail ∧ AddPointerToChain h l.length head ptr = some h) ∨
    (ptr ∉ l.tail ∧ ∃ l₀ t, l = l₀ ++ [t] ∧ (h t).pNext = 0 ∧
      AddPointerToChain h l.length head ptr =
        some (updateHeap h t ⟨(h t).sType, ptr, (h t).payload⟩) ∧
      updateHeap h t ⟨(h t).sType, ptr, (h t).payload⟩ t =
        ⟨(h t).sType, ptr, (h t).payload⟩ ∧
      ∀ q, q ≠ t → updateHeap h t ⟨(h t).sType, ptr, (h t).payload⟩ q = h q) := by
  by_cases hmem : ptr ∈ l.tail
  · exact Or.inl ⟨hmem, addPtr_dup h ptr l.length head l hv.1 hmem⟩
  · refine Or.inr ⟨hmem, ?_⟩
    obtain ⟨l₀, t, hlt, hpt, hres⟩ := addPtr_fresh h ptr l.length head l hv.1 hmem
    exact ⟨l₀, t, hlt, hpt, hres, by simp [updateHeap],
      fun q hq => by simp [updateHeap, hq]⟩

/-- Witness for amended C10: appending fresh node `4` to the chain
`1 → 2 → 3` rewrites only the tail `3`. -/
theorem AddPointerToChain_frame_witness :
    validChain chainXYHeap 1 [1, 2, 3] ∧
    ((4 ∈ ([1, 2, 3] : List Ptr).tail ∧
        AddPointerToChain chainXYHeap 3 1 4 = some chainXYHeap) ∨
      (4 ∉ ([1, 2, 3] : List Ptr).tail ∧ ∃ l₀ t, [1, 2, 3] = l₀ ++ [t] ∧
        (chainXYHeap t).pNext = 0 ∧
        AddPointerToChain chainXYHeap 3 1 4 =
          some (updateHeap chainXYHeap t
            ⟨(chainXYHeap t).sType, 4, (chainXYHeap t).payload⟩) ∧
        updateHeap chainXYHeap t ⟨(chainXYHeap t).sType, 4, (chainXYHeap t).payload⟩ t =
          ⟨(chainXYHeap t).sType, 4, (chainXYHeap t).payload⟩ ∧
        ∀ q, q ≠ t →
          updateHeap chainXYHeap t ⟨(chainXYHeap t).sType, 4, (chainXYHeap t).payload⟩ q =
            chainXYHeap q)) :=
  ⟨by decide, AddPointerToChain_frame chainXYHeap 1 4 [1, 2, 3] (by decide)⟩

end Vulkan
